import Mathlib

/-!
Verification development for the TalkMateAI voice-assistant server core.

The Python source is shallowly embedded: each relevant function or coroutine
body becomes a pure Lean definition, with the external collaborators
(faster-whisper, the Ollama LLM, the Kokoro TTS engine) abstracted as oracle
parameters, and exceptions as `Except`/`Option` results.  Stateful maps
(the `ConnectionManager` dictionaries) are association lists keyed by client
id, and the concurrent brain loop is modelled as the sequence of events it
performs while draining the utterance queue.
-/

namespace TalkMate

/-! ## Speech-to-text: `WhisperProcessor.transcribe_audio`

`transcribe_audio(audio_bytes)` wraps its whole body in a `try`: it decodes
the bytes to a float array and computes an RMS energy; if the RMS is below
`MIN_ENERGY_THRESHOLD` it returns `"NO_SPEECH"`.  Otherwise it runs the
faster-whisper model in an executor; the inner function returns the joined,
stripped segment text (possibly `""`, e.g. on a failed language gate).  An
empty inner result is mapped to `"NO_SPEECH"`; any exception anywhere in the
body is caught and mapped to `None`. -/

/-- Model of `WhisperProcessor.transcribe_audio`.  `pre` is the outcome of the
byte-decoding / RMS stage: `.error` if it raises, `.ok rmsLow` with the result
of the float comparison `rms < MIN_ENERGY_THRESHOLD` otherwise (floating-point
arithmetic is abstracted to this boolean).  `inner` is the outcome of the
executor call `_run_transcription`: the joined, stripped segment text, or
`.error` if the model call raises.  `none` models Python `None`. -/
def transcribe_audio (pre : Except Unit Bool) (inner : Except Unit String) :
    Option String :=
  match pre with
  | .error _ => none
  | .ok rmsLow =>
    if rmsLow then some "NO_SPEECH"
    else
      match inner with
      | .error _ => none
      | .ok t => if t = "" then some "NO_SPEECH" else some t

/-! ## Listener

The `listener()` coroutine receives one text frame at a time.  `json.loads`
failure sends `{"error": "Invalid JSON format"}` and continues the loop; a
well-formed object with an `"audio_segment"` field is base64-decoded and
transcribed, and the result is pushed onto the per-connection text queue
unless it is `"NOISE_DETECTED"`, `"NO_SPEECH"` or `None`; any other
well-formed object is silently ignored. -/

/-- Frames the listener can send back to the client (only the error frame is
reachable from the listener loop). -/
inductive OutFrame
  | errorFrame (msg : String)
deriving DecidableEq

/-- One inbound client frame as classified by the listener parse step:
`malformed` when `json.loads` raises, `audioSegment` for an object carrying
an `"audio_segment"` field (payload already base64-decoded to bytes),
`nonAudio` for any other well-formed object. -/
inductive Inbound
  | malformed
  | audioSegment (bytes : List Nat)
  | nonAudio
deriving DecidableEq

/-- What one listener iteration produces: frames sent to the client and texts
pushed onto the utterance queue. -/
structure ListenerOut where
  frames : List OutFrame
  pushes : List String
deriving DecidableEq

/-- Model of one iteration of the `listener()` loop body, with the
transcription collaborator abstracted as the oracle `stt` (returning the model
of `transcribe_audio`: recognized text, a sentinel string, or `none`). -/
def listenerStep (stt : List Nat → Option String) : Inbound → ListenerOut
  | .malformed => ⟨[.errorFrame "Invalid JSON format"], []⟩
  | .nonAudio => ⟨[], []⟩
  | .audioSegment b =>
    match stt b with
    | none => ⟨[], []⟩
    | some t =>
      if t = "NOISE_DETECTED" ∨ t = "NO_SPEECH" then ⟨[], []⟩
      else ⟨[], [t]⟩

/-- Model of the `listener()` loop run over a whole sequence of inbound
frames: every frame is handled by `listenerStep` and the loop continues to the
next frame regardless of the step outcome. -/
def listenerRun (stt : List Nat → Option String) : List Inbound → ListenerOut
  | [] => ⟨[], []⟩
  | f :: rest =>
    let o := listenerStep stt f
    let r := listenerRun stt rest
    ⟨o.frames ++ r.frames, o.pushes ++ r.pushes⟩

/-! ## Conversational model: `OllamaProcessor.get_response`

`get_response(prompt)` returns `""` immediately on an empty prompt.
Otherwise it appends the user message to the shared history, calls the Ollama
chat endpoint, extracts and strips the reply content, substitutes the canned
fallback string when the content is empty, appends the assistant message to
the history and returns the content; on any exception it appends the fallback
as the assistant message and returns the fallback. -/

/-- One chat-history entry, mirroring the `{"role": ..., "content": ...}`
dictionaries of `OllamaProcessor.history`. -/
structure ChatMsg where
  role : String
  content : String
deriving DecidableEq

/-- The canned fallback reply used by `OllamaProcessor.get_response` both for
an empty model reply and for a model-call exception. -/
def fallback : String := "I\x27m having trouble thinking right now."

/-- The initial (and reset) conversation history: just the system prompt.
The prompt text itself is irrelevant to the claims, so it is a parameter. -/
def initHistory (sys : String) : List ChatMsg := [⟨"system", sys⟩]

/-- Model of `OllamaProcessor.get_response`.  `hist` is the current shared
history, `prompt` the utterance text, and `outcome` the oracle for the Ollama
chat call: `.ok raw` with the raw extracted content string (the code's
`message.get("content", "")`, possibly empty), or `.error` when the call
raises.  Returns the reply text and the updated history. -/
def get_response (hist : List ChatMsg) (prompt : String)
    (outcome : Except Unit String) : String × List ChatMsg :=
  if prompt = "" then ("", hist)
  else
    let hist1 := hist ++ [⟨"user", prompt⟩]
    match outcome with
    | .ok raw =>
      let c := raw.trim
      let content := if c = "" then fallback else c
      (content, hist1 ++ [⟨"assistant", content⟩])
    | .error _ => (fallback, hist1 ++ [⟨"assistant", fallback⟩])

/-! ## Connection registry: `ConnectionManager`

The registry keeps three dictionaries keyed by client id:
`active_connections` (websocket handles), `current_tasks` (the two named task
slots `"processing"` and `"tts"`), and `client_state`.  Python dictionaries
are modelled as association lists with the usual no-duplicate-keys invariant
that dictionary assignment maintains. -/

/-- Association-list lookup, modelling `d[k]` / `k in d` on a Python dict. -/
def lookupK {α : Type} (id : String) : List (String × α) → Option α
  | [] => none
  | (k, v) :: rest => if k = id then some v else lookupK id rest

/-- Association-list key removal, modelling `del d[k]` (removes the single
entry for `k`; with no duplicate keys this is exact). -/
def eraseK {α : Type} (id : String) : List (String × α) → List (String × α)
  | [] => []
  | (k, v) :: rest => if k = id then rest else (k, v) :: eraseK id rest

/-- Association-list assignment, modelling `d[k] = v` (replaces the existing
entry or appends a new one). -/
def setK {α : Type} (id : String) (v : α) :
    List (String × α) → List (String × α)
  | [] => [(id, v)]
  | (k, w) :: rest => if k = id then (id, v) :: rest else (k, w) :: setK id v rest

/-- What awaiting an `asyncio.Task` right after requesting its cancellation
yields: the expected `CancelledError` acknowledgment, a normal return (the
task finished or caught the cancellation), or some other raised exception. -/
inductive AwaitOutcome
  | cancelled
  | returned
  | raised (msg : String)
deriving DecidableEq

/-- An `asyncio.Task` as seen by the cancellation logic: whether `done()` is
already true, and what awaiting it after `cancel()` yields. -/
structure PyTask where
  done : Bool
  ack : AwaitOutcome
deriving DecidableEq

/-- The two named task slots of `manager.current_tasks[client_id]`;
`none` models Python `None`. -/
structure TaskSlots where
  processing : Option PyTask
  tts : Option PyTask
deriving DecidableEq

/-- The slot dictionary `{"processing": None, "tts": None}` installed by
`connect` and restored by `cancel_current_tasks`. -/
def emptySlots : TaskSlots := ⟨none, none⟩

/-- The mutable state of the process-wide `ConnectionManager` singleton
(the statistics counters are untouched by the operations under study and are
omitted).  Websocket handles are abstracted as opaque numbers. -/
structure ConnectionManager where
  client_state : List (String × String)
  active_connections : List (String × Nat)
  current_tasks : List (String × TaskSlots)
deriving DecidableEq

/-- Model of `ConnectionManager.connect`: accepts the websocket and installs
the handle, the empty task slots, and the `"IDLE"` state for the client. -/
def connect (m : ConnectionManager) (id : String) (ws : Nat) :
    ConnectionManager :=
  { client_state := setK id "IDLE" m.client_state
    active_connections := setK id ws m.active_connections
    current_tasks := setK id emptySlots m.current_tasks }

/-- Model of `ConnectionManager.disconnect`: each of the three dictionaries
drops its entry for the id if present (each deletion is guarded by a
membership test, so an unknown id raises nothing). -/
def disconnect (m : ConnectionManager) (id : String) : ConnectionManager :=
  { client_state :=
      if (lookupK id m.client_state).isSome then eraseK id m.client_state
      else m.client_state
    active_connections :=
      if (lookupK id m.active_connections).isSome then
        eraseK id m.active_connections
      else m.active_connections
    current_tasks :=
      if (lookupK id m.current_tasks).isSome then eraseK id m.current_tasks
      else m.current_tasks }

/-- Cancelling one task slot, modelling the
`if tasks[slot] and not tasks[slot].done(): tasks[slot].cancel(); await ...`
block: an empty or already-done slot is skipped; otherwise the task is
cancelled and awaited, a `CancelledError` acknowledgment is swallowed, and
any other exception propagates. -/
def cancelSlot (s : Option PyTask) : Except String Unit :=
  match s with
  | none => .ok ()
  | some t =>
    if t.done then .ok ()
    else
      match t.ack with
      | .cancelled => .ok ()
      | .returned => .ok ()
      | .raised msg => .error msg

/-- Model of `ConnectionManager.cancel_current_tasks`: for a registered id,
cancel the `processing` slot, then the `tts` slot, then reset the slot
dictionary to `{"processing": None, "tts": None}`; an unknown id is a no-op.
An exception escaping either await propagates and skips the reset. -/
def cancel_current_tasks (m : ConnectionManager) (id : String) :
    Except String ConnectionManager :=
  match lookupK id m.current_tasks with
  | none => .ok m
  | some slots =>
    match cancelSlot slots.processing with
    | .error e => .error e
    | .ok _ =>
      match cancelSlot slots.tts with
      | .error e => .error e
      | .ok _ =>
        .ok { m with current_tasks := setK id emptySlots m.current_tasks }

/-! ## Brain

The `brain()` coroutine loops: pop a text from the queue, set state
`"THINKING"`, call the LLM, synthesize speech; if the synthesis produced a
non-empty audio array, set state `"SPEAKING"` and send the reply frame; then
mark the queue item done and set state `"WAITING_FOR_PLAYBACK"` — the last
write happens on every iteration, outside the audio guard.  The loop body is
modelled as the sequence of observable events of one iteration. -/

/-- The session-state strings written via `manager.client_state`. -/
inductive SessState
  | IDLE
  | THINKING
  | SPEAKING
  | WAITING_FOR_PLAYBACK
deriving DecidableEq

/-- Observable events of one brain-loop iteration: a state write, the start of
the LLM call on the popped utterance, the synthesis call on the reply text,
the send of the encoded reply frame, and the queue `task_done` mark. -/
inductive BrainEv
  | setState (s : SessState)
  | modelCall (u : String)
  | synth (t : String)
  | sendFrame
  | taskDone
deriving DecidableEq

/-- Model of one iteration of the `brain()` loop body on the popped utterance
`u`.  `llm` is the oracle for `ollama_processor.get_response` (total: the
collaborator never raises, see `get_response`), and `tts` the oracle for the
synthesis call, returning `none` for Python `None` and the sample list
otherwise; the frame is sent exactly when the audio is non-`None` and
non-empty. -/
def brainBlock (llm : String → String) (tts : String → Option (List Int))
    (u : String) : List BrainEv :=
  let reply := llm u
  [.setState .THINKING, .modelCall u, .synth reply] ++
    (match tts reply with
     | some a => if 0 < a.length then [.setState .SPEAKING, .sendFrame] else []
     | none => []) ++
    [.taskDone, .setState .WAITING_FOR_PLAYBACK]

/-- The brain loop draining the queue contents `us`, tagging each event with
the queue position of the utterance it belongs to, starting at position
`k`.  Because the loop is a single sequential consumer, the trace of
utterance `k` is emitted in full before the trace of utterance `k + 1`
begins. -/
def brainTraceFrom (llm : String → String) (tts : String → Option (List Int)) :
    Nat → List String → List (Nat × BrainEv)
  | _, [] => []
  | k, u :: rest =>
    (brainBlock llm tts u).map (fun e => (k, e)) ++
      brainTraceFrom llm tts (k + 1) rest

/-- The full event trace of the brain loop over the FIFO queue contents
`us` (utterance 0 first). -/
def brainTrace (llm : String → String) (tts : String → Option (List Int))
    (us : List String) : List (Nat × BrainEv) :=
  brainTraceFrom llm tts 0 us

/-- Projection extracting the utterance of a model-call event. -/
def modelCallOf (p : Nat × BrainEv) : Option String :=
  match p.2 with
  | .modelCall u => some u
  | _ => none

/-! ## Session teardown

The websocket endpoint's `finally` block runs
`await manager.cancel_current_tasks(client_id)` then
`manager.disconnect(client_id)` — it never touches the websocket handle
itself.  The lifespan shutdown hook, for each remaining client, closes the
handle inside a `try`/`except` that only logs a failure, and then calls
`manager.disconnect`. -/

/-- Teardown-level actions on a session. -/
inductive TeardownAct
  | cancelTasks (id : String)
  | unregister (id : String)
  | closeHandle (id : String)
deriving DecidableEq

/-- Model of the per-session teardown path: the `finally` block of
`websocket_endpoint`. -/
def endpointTeardown (id : String) : List TeardownAct :=
  [.cancelTasks id, .unregister id]

/-- Actions and error logs of one client's cleanup in the lifespan shutdown
hook. -/
structure ShutdownResult where
  acts : List TeardownAct
  logs : List String
deriving DecidableEq

/-- Model of the lifespan shutdown hook's per-client body: attempt
`websocket.close()` once (`closeFails` is the oracle for whether it raises;
a failure is logged, not propagated), then `manager.disconnect` in either
case. -/
def lifespanShutdownClient (closeFails : Bool) (id : String) :
    ShutdownResult :=
  { acts := [.closeHandle id, .unregister id]
    logs := if closeFails then ["Error closing connection for " ++ id] else [] }

/-! ## Association-list lemmas -/

theorem lookupK_setK_self {α : Type} (id : String) (v : α) :
    ∀ l : List (String × α), lookupK id (setK id v l) = some v := by
  intro l
  induction l with
  | nil => simp [setK, lookupK]
  | cons p rest ih =>
    obtain ⟨k, w⟩ := p
    by_cases hk : k = id
    · simp [setK, lookupK, hk]
    · simp [setK, lookupK, hk, ih]

theorem setK_setK {α : Type} (id : String) (v w : α) :
    ∀ l : List (String × α), setK id v (setK id w l) = setK id v l := by
  intro l
  induction l with
  | nil => simp [setK]
  | cons p rest ih =>
    obtain ⟨k, u⟩ := p
    by_cases hk : k = id
    · simp [setK, hk]
    · simp [setK, hk, ih]

theorem lookupK_eq_none_of_not_mem {α : Type} (id : String) :
    ∀ l : List (String × α), id ∉ l.map Prod.fst → lookupK id l = none := by
  intro l
  induction l with
  | nil => intro _; rfl
  | cons p rest ih =>
    obtain ⟨k, v⟩ := p
    intro h
    simp only [List.map_cons, List.mem_cons] at h
    push_neg at h
    have hk : k ≠ id := fun he => h.1 he.symm
    simp [lookupK, hk, ih h.2]

theorem lookupK_eraseK_self {α : Type} (id : String) :
    ∀ l : List (String × α), (l.map Prod.fst).Nodup →
      lookupK id (eraseK id l) = none := by
  intro l
  induction l with
  | nil => intro _; rfl
  | cons p rest ih =>
    obtain ⟨k, v⟩ := p
    intro hnd
    simp only [List.map_cons, List.nodup_cons] at hnd
    by_cases hk : k = id
    · subst hk
      simp only [eraseK, if_pos rfl]
      exact lookupK_eq_none_of_not_mem k rest hnd.1
    · simp [eraseK, hk, lookupK, ih hnd.2]

theorem length_eraseK_of_isSome {α : Type} (id : String) :
    ∀ l : List (String × α), (lookupK id l).isSome →
      (eraseK id l).length + 1 = l.length := by
  intro l
  induction l with
  | nil => intro h; cases h
  | cons p rest ih =>
    obtain ⟨k, v⟩ := p
    intro h
    by_cases hk : k = id
    · simp [eraseK, hk]
    · simp only [lookupK, if_neg hk] at h
      simp [eraseK, hk, ih h]

/-! ## Claim theorems -/

/-- C2: whenever the transcription collaborator classifies an audio segment
as transcription failure (`none`), no-speech, or noise, the listener pushes
nothing onto the utterance queue and emits no frame to the client. -/
theorem listener_discards_non_speech (stt : List Nat → Option String)
    (b : List Nat)
    (h : stt b = none ∨ stt b = some "NO_SPEECH" ∨
         stt b = some "NOISE_DETECTED") :
    listenerStep stt (Inbound.audioSegment b) = ⟨[], []⟩ := by
  rcases h with h | h | h <;> simp [listenerStep, h]

/-- Witness for C2 at a concrete no-speech transcription. -/
theorem listener_discards_non_speech_w :
    listenerStep (fun _ => some "NO_SPEECH") (Inbound.audioSegment [1, 2])
      = ⟨[], []⟩ :=
  listener_discards_non_speech (fun _ => some "NO_SPEECH") [1, 2]
    (Or.inr (Or.inl rfl))

/-- C7: a malformed inbound frame produces exactly the error frame
`{"error": "Invalid JSON format"}`, pushes nothing, and the listener loop
continues: the frames and pushes of a run with a malformed frame in the
middle are exactly those of the surrounding frames with the single error
frame inserted. -/
theorem listener_malformed_recovers (stt : List Nat → Option String)
    (xs ys : List Inbound) :
    listenerStep stt Inbound.malformed
        = ⟨[OutFrame.errorFrame "Invalid JSON format"], []⟩ ∧
    listenerRun stt (xs ++ Inbound.malformed :: ys)
      = ⟨(listenerRun stt xs).frames ++
           OutFrame.errorFrame "Invalid JSON format"
             :: (listenerRun stt ys).frames,
         (listenerRun stt xs).pushes ++ (listenerRun stt ys).pushes⟩ := by
  refine ⟨rfl, ?_⟩
  induction xs with
  | nil => simp [listenerRun, listenerStep]
  | cons f xs ih => simp [listenerRun, ih]

/-- C9: `transcribe_audio` returns non-empty recognized text, `"NO_SPEECH"`,
or `none`; it never returns `""` (an empty transcription and too-quiet audio
both map to `"NO_SPEECH"`, and internal exceptions map to `none`), and it
never returns `"NOISE_DETECTED"` as long as the recognition engine itself did
not emit that literal text. -/
theorem transcribe_audio_classification (pre : Except Unit Bool)
    (inner : Except Unit String) :
    transcribe_audio pre inner ≠ some "" ∧
    (transcribe_audio pre inner = none ∨
     transcribe_audio pre inner = some "NO_SPEECH" ∨
     ∃ t, t ≠ "" ∧ inner = .ok t ∧ transcribe_audio pre inner = some t) ∧
    ((∀ t, inner = Except.ok t → t ≠ "NOISE_DETECTED") →
      transcribe_audio pre inner ≠ some "NOISE_DETECTED") := by
  cases pre with
  | error e => simp [transcribe_audio]
  | ok rmsLow =>
    cases rmsLow with
    | true => simp [transcribe_audio]
    | false =>
      cases inner with
      | error e => simp [transcribe_audio]
      | ok t =>
        by_cases ht : t = ""
        · simp [transcribe_audio, ht]
        · refine ⟨?_, Or.inr (Or.inr ⟨t, ht, rfl, ?_⟩), ?_⟩
          · simp [transcribe_audio, ht]
          · simp [transcribe_audio, ht]
          · intro hno
            simp [transcribe_audio, ht]
            exact hno t rfl

/-- Witness for C9 at a concrete recognized text. -/
theorem transcribe_audio_classification_w :
    transcribe_audio (Except.ok false) (Except.ok "hello")
      ≠ some "NOISE_DETECTED" :=
  (transcribe_audio_classification (Except.ok false) (Except.ok "hello")).2.2
    (fun t ht => by cases ht; decide)

/-- C3: for a non-empty prompt, `get_response` always returns non-empty text
(the model is a total function of the oracle outcome, so no exception crosses
the boundary), and it returns the canned fallback string exactly when the
chat call raises or the stripped reply content is empty. -/
theorem get_response_nonempty (hist : List ChatMsg) (prompt : String)
    (outcome : Except Unit String) (h : prompt ≠ "") :
    (get_response hist prompt outcome).1 ≠ "" ∧
    (∀ e, outcome = .error e → (get_response hist prompt outcome).1 = fallback) ∧
    (∀ raw, outcome = .ok raw → raw.trim = "" →
      (get_response hist prompt outcome).1 = fallback) := by
  cases outcome with
  | error e =>
    refine ⟨?_, fun _ _ => ?_, fun raw hraw => ?_⟩
    · simp [get_response, h, fallback]
    · simp [get_response, h]
    · cases hraw
  | ok raw =>
    by_cases hr : raw.trim = ""
    · refine ⟨?_, fun e he => ?_, fun r hr2 _ => ?_⟩
      · simp [get_response, h, hr, fallback]
      · cases he
      · cases hr2
        simp [get_response, h, hr]
    · refine ⟨?_, fun e he => ?_, fun r hr2 hr3 => ?_⟩
      · simp [get_response, h, hr]
      · cases he
      · cases hr2
        exact absurd hr3 hr

/-- Witness for C3 at a concrete failing model call. -/
theorem get_response_nonempty_w :
    (get_response (initHistory "s") "hi" (Except.error ())).1 = fallback :=
  (get_response_nonempty (initHistory "s") "hi" (Except.error ())
    (by decide)).2.1 () rfl

/-- C10: a call with a non-empty prompt appends exactly the user message
followed by the assistant message to the shared history, whatever the model
outcome; a call with an empty prompt returns `""` with the history unchanged;
and the first history entry (the system prompt) is preserved. -/
theorem get_response_history_shape (hist : List ChatMsg) (prompt : String)
    (outcome : Except Unit String) :
    (prompt ≠ "" →
      (get_response hist prompt outcome).2
        = hist ++ [ChatMsg.mk "user" prompt,
                   ChatMsg.mk "assistant" (get_response hist prompt outcome).1]) ∧
    (prompt = "" → get_response hist prompt outcome = ("", hist)) ∧
    (hist ≠ [] → ((get_response hist prompt outcome).2).head? = hist.head?) := by
  by_cases hp : prompt = ""
  · refine ⟨fun h => absurd hp h, fun _ => ?_, fun _ => ?_⟩
    · simp [get_response, hp]
    · simp [get_response, hp]
  · have hmain : (get_response hist prompt outcome).2
        = hist ++ [ChatMsg.mk "user" prompt,
                   ChatMsg.mk "assistant" (get_response hist prompt outcome).1] := by
      cases outcome with
      | error e => simp [get_response, hp]
      | ok raw => by_cases hr : raw.trim = "" <;> simp [get_response, hp, hr]
    refine ⟨fun _ => hmain, fun h => absurd h hp, fun hne => ?_⟩
    rw [hmain]
    cases hist with
    | nil => exact absurd rfl hne
    | cons a t => simp

/-- Witness for C10 at a concrete successful call on a singleton history. -/
theorem get_response_history_shape_w :
    (get_response (initHistory "s") "hi" (Except.ok " ok ")).2
      = initHistory "s" ++
          [ChatMsg.mk "user" "hi",
           ChatMsg.mk "assistant"
             (get_response (initHistory "s") "hi" (Except.ok " ok ")).1] :=
  (get_response_history_shape (initHistory "s") "hi" (Except.ok " ok ")).1
    (by decide)

/-- C8 counterexample: the per-session teardown path (the endpoint's
`finally` block) never closes the connection handle at all — so the handle is
not closed "after cancelTasks and unregister have run" by that path. -/
theorem endpointTeardown_never_closes :
    TeardownAct.closeHandle "c1" ∉ endpointTeardown "c1" ∧
    endpointTeardown "c1"
      = [TeardownAct.cancelTasks "c1", TeardownAct.unregister "c1"] := by
  exact ⟨by decide, rfl⟩

/-- C8 (amended): the per-session teardown path runs cancelTasks then
unregister and does not itself close the connection handle; only the
process-shutdown path closes a session's handle, exactly once, *before* its
unregister call, and a close failure is logged while unregister still runs. -/
theorem teardown_close_paths (id : String) :
    endpointTeardown id
        = [TeardownAct.cancelTasks id, TeardownAct.unregister id] ∧
    TeardownAct.closeHandle id ∉ endpointTeardown id ∧
    (∀ b, (lifespanShutdownClient b id).acts
        = [TeardownAct.closeHandle id, TeardownAct.unregister id]) ∧
    (lifespanShutdownClient true id).logs
        = ["Error closing connection for " ++ id] ∧
    (lifespanShutdownClient false id).logs = [] := by
  refine ⟨rfl, ?_, fun b => rfl, rfl, rfl⟩
  simp [endpointTeardown]

/-- C4 counterexample: with a synthesis collaborator that yields no audio,
the brain iteration still writes `WAITING_FOR_PLAYBACK` (the write sits after
the audio guard, unconditionally), even though no reply frame is sent and
`SPEAKING` is skipped. -/
theorem brain_waiting_without_audio :
    BrainEv.setState SessState.WAITING_FOR_PLAYBACK
        ∈ brainBlock (fun _ => "ok") (fun _ => none) "hi" ∧
    BrainEv.setState SessState.SPEAKING
        ∉ brainBlock (fun _ => "ok") (fun _ => none) "hi" ∧
    BrainEv.sendFrame ∉ brainBlock (fun _ => "ok") (fun _ => none) "hi" := by
  refine ⟨?_, ?_, ?_⟩ <;> decide

/-- C4 (amended): per utterance, `THINKING` is written before the model call;
`SPEAKING` and the reply-frame send occur, in that order, exactly when
synthesis produced non-empty audio; and `WAITING_FOR_PLAYBACK` is written at
the end of *every* iteration — also when synthesis yields no audio (only
`SPEAKING` and the send are skipped then); the brain never writes `IDLE`. -/
theorem brain_state_sequence (llm : String → String)
    (tts : String → Option (List Int)) (u : String) :
    (∀ a, tts (llm u) = some a → 0 < a.length →
      [BrainEv.setState SessState.THINKING, BrainEv.modelCall u,
       BrainEv.setState SessState.SPEAKING, BrainEv.sendFrame,
       BrainEv.setState SessState.WAITING_FOR_PLAYBACK].Sublist
          (brainBlock llm tts u)) ∧
    (tts (llm u) = none →
       [BrainEv.setState SessState.THINKING, BrainEv.modelCall u,
        BrainEv.taskDone,
        BrainEv.setState SessState.WAITING_FOR_PLAYBACK].Sublist
           (brainBlock llm tts u) ∧
       BrainEv.setState SessState.SPEAKING ∉ brainBlock llm tts u ∧
       BrainEv.sendFrame ∉ brainBlock llm tts u) ∧
    (∀ a, tts (llm u) = some a → a.length = 0 →
       BrainEv.setState SessState.SPEAKING ∉ brainBlock llm tts u ∧
       BrainEv.sendFrame ∉ brainBlock llm tts u) ∧
    BrainEv.setState SessState.WAITING_FOR_PLAYBACK ∈ brainBlock llm tts u ∧
    BrainEv.setState SessState.IDLE ∉ brainBlock llm tts u := by
  refine ⟨?_, ?_, ?_, ?_, ?_⟩
  · intro a ha hlen
    simp only [brainBlock, ha, if_pos hlen]
    exact .cons₂ _ (.cons₂ _ (.cons _ (.cons₂ _ (.cons₂ _ (.cons _
      (.cons₂ _ .slnil))))))
  · intro ha
    refine ⟨?_, ?_, ?_⟩
    · simp only [brainBlock, ha]
      exact .cons₂ _ (.cons₂ _ (.cons _ (.cons₂ _ (.cons₂ _ .slnil))))
    · simp [brainBlock, ha]
    · simp [brainBlock, ha]
  · intro a ha hlen
    have hnot : ¬ 0 < a.length := by omega
    constructor
    · simp [brainBlock, ha, hnot]
    · simp [brainBlock, ha, hnot]
  · cases htts : tts (llm u) with
    | none => simp [brainBlock, htts]
    | some a => by_cases hl : 0 < a.length <;> simp [brainBlock, htts, hl]
  · cases htts : tts (llm u) with
    | none => simp [brainBlock, htts]
    | some a => by_cases hl : 0 < a.length <;> simp [brainBlock, htts, hl]

/-- Witness for the amended C4 at concrete oracles producing audio. -/
theorem brain_state_sequence_w :
    [BrainEv.setState SessState.THINKING, BrainEv.modelCall "hi",
     BrainEv.setState SessState.SPEAKING, BrainEv.sendFrame,
     BrainEv.setState SessState.WAITING_FOR_PLAYBACK].Sublist
        (brainBlock (fun _ => "ok") (fun _ => some [1]) "hi") :=
  (brain_state_sequence (fun _ => "ok") (fun _ => some [1]) "hi").1 [1] rfl
    (by decide)

/-- C5: for a registered session id whose pending task slots acknowledge
cancellation (or are empty / already done), `cancel_current_tasks` completes
without error and resets both slots to empty; a second call in a row is again
error-free and leaves both slots empty. -/
theorem cancel_current_tasks_resets (m : ConnectionManager) (id : String)
    (slots : TaskSlots)
    (h : lookupK id m.current_tasks = some slots)
    (hp : cancelSlot slots.processing = Except.ok ())
    (ht : cancelSlot slots.tts = Except.ok ()) :
    ∃ m', cancel_current_tasks m id = Except.ok m' ∧
      lookupK id m'.current_tasks = some emptySlots ∧
      cancel_current_tasks m' id = Except.ok m' ∧
      lookupK id m'.current_tasks = some emptySlots := by
  refine ⟨{ m with current_tasks := setK id emptySlots m.current_tasks },
    ?_, ?_, ?_, ?_⟩
  · simp [cancel_current_tasks, h, hp, ht]
  · exact lookupK_setK_self id emptySlots m.current_tasks
  · simp [cancel_current_tasks, cancelSlot, emptySlots, setK_setK,
      lookupK_setK_self]
  · exact lookupK_setK_self id emptySlots m.current_tasks

/-- Witness for C5: a registered client with one pending task that
acknowledges cancellation. -/
theorem cancel_current_tasks_resets_w :
    ∃ m', cancel_current_tasks
        ⟨[("c", "IDLE")], [("c", 7)],
         [("c", TaskSlots.mk (some ⟨false, AwaitOutcome.cancelled⟩) none)]⟩
        "c" = Except.ok m' ∧
      lookupK "c" m'.current_tasks = some emptySlots ∧
      cancel_current_tasks m' "c" = Except.ok m' ∧
      lookupK "c" m'.current_tasks = some emptySlots :=
  cancel_current_tasks_resets
    ⟨[("c", "IDLE")], [("c", 7)],
     [("c", TaskSlots.mk (some ⟨false, AwaitOutcome.cancelled⟩) none)]⟩
    "c" (TaskSlots.mk (some ⟨false, AwaitOutcome.cancelled⟩) none)
    (by decide) rfl rfl

/-- C6: on a registered session id (under the dictionary no-duplicate-keys
invariant), `disconnect` removes the entry from the connections map, the
task-slot map and the state map, and decrements the live-session count
(`len(active_connections)`) by exactly one; on an id unknown to all three
maps, `disconnect` is a no-op and raises nothing (it is total). -/
theorem disconnect_teardown_complete (m : ConnectionManager) (id : String) :
    ((m.active_connections.map Prod.fst).Nodup →
     (m.current_tasks.map Prod.fst).Nodup →
     (m.client_state.map Prod.fst).Nodup →
     (lookupK id m.active_connections).isSome →
       lookupK id (disconnect m id).active_connections = none ∧
       lookupK id (disconnect m id).current_tasks = none ∧
       lookupK id (disconnect m id).client_state = none ∧
       (disconnect m id).active_connections.length + 1
          = m.active_connections.length) ∧
    (lookupK id m.active_connections = none →
     lookupK id m.current_tasks = none →
     lookupK id m.client_state = none →
       disconnect m id = m) := by
  constructor
  · intro hndA hndT hndS hsome
    refine ⟨?_, ?_, ?_, ?_⟩
    · simp only [disconnect, hsome, if_pos]
      exact lookupK_eraseK_self id m.active_connections hndA
    · cases hT : lookupK id m.current_tasks with
      | none => simp [disconnect, hT]
      | some s =>
        simp only [disconnect, hT, Option.isSome_some, if_true]
        exact lookupK_eraseK_self id m.current_tasks hndT
    · cases hS : lookupK id m.client_state with
      | none => simp [disconnect, hS]
      | some s =>
        simp only [disconnect, hS, Option.isSome_some, if_true]
        exact lookupK_eraseK_self id m.client_state hndS
    · simp only [disconnect, hsome, if_pos]
      exact length_eraseK_of_isSome id m.active_connections hsome
  · intro hA hT hS
    simp [disconnect, hA, hT, hS]

/-- Witness for C6 at a one-session registry. -/
theorem disconnect_teardown_complete_w :
    lookupK "c" (disconnect
        ⟨[("c", "IDLE")], [("c", 7)], [("c", emptySlots)]⟩ "c").active_connections
      = none ∧
    lookupK "c" (disconnect
        ⟨[("c", "IDLE")], [("c", 7)], [("c", emptySlots)]⟩ "c").current_tasks
      = none ∧
    lookupK "c" (disconnect
        ⟨[("c", "IDLE")], [("c", 7)], [("c", emptySlots)]⟩ "c").client_state
      = none ∧
    (disconnect ⟨[("c", "IDLE")], [("c", 7)],
        [("c", emptySlots)]⟩ "c").active_connections.length + 1
      = ([("c", (7 : Nat))]).length :=
  (disconnect_teardown_complete
      ⟨[("c", "IDLE")], [("c", 7)], [("c", emptySlots)]⟩ "c").1
    (by decide) (by decide) (by decide) (by decide)

/-! ## Brain-trace lemmas -/

theorem pairwise_all {α : Type} (R : α → α → Prop) (h : ∀ a b, R a b) :
    ∀ l : List α, l.Pairwise R
  | [] => .nil
  | a :: l => .cons (fun b _ => h a b) (pairwise_all R h l)

theorem brainTraceFrom_key_lb (llm : String → String)
    (tts : String → Option (List Int)) :
    ∀ (us : List String) (k : Nat) (p : Nat × BrainEv),
      p ∈ brainTraceFrom llm tts k us → k ≤ p.1 := by
  intro us
  induction us with
  | nil => intro k p hp; simp [brainTraceFrom] at hp
  | cons u rest ih =>
    intro k p hp
    simp only [brainTraceFrom, List.mem_append, List.mem_map] at hp
    rcases hp with ⟨e, _, rfl⟩ | hp
    · exact Nat.le_refl k
    · exact Nat.le_trans (Nat.le_succ k) (ih (k + 1) p hp)

theorem brainTraceFrom_pairwise (llm : String → String)
    (tts : String → Option (List Int)) :
    ∀ (us : List String) (k : Nat),
      (brainTraceFrom llm tts k us).Pairwise (fun a b => a.1 ≤ b.1) := by
  intro us
  induction us with
  | nil => intro k; simp [brainTraceFrom]
  | cons u rest ih =>
    intro k
    simp only [brainTraceFrom]
    rw [List.pairwise_append]
    refine ⟨?_, ih (k + 1), ?_⟩
    · rw [List.pairwise_map]
      exact pairwise_all _ (fun a b => Nat.le_refl k) _
    · intro a ha b hb
      simp only [List.mem_map] at ha
      obtain ⟨e, _, rfl⟩ := ha
      exact Nat.le_trans (Nat.le_succ k) (brainTraceFrom_key_lb llm tts rest (k + 1) b hb)

theorem brainBlock_filterMap_modelCall (llm : String → String)
    (tts : String → Option (List Int)) (u : String) (k : Nat) :
    ((brainBlock llm tts u).map (fun e => (k, e))).filterMap modelCallOf
      = [u] := by
  cases htts : tts (llm u) with
  | none => simp [brainBlock, htts, modelCallOf]
  | some a =>
    by_cases hl : 0 < a.length <;>
      simp [brainBlock, htts, hl, modelCallOf]

theorem brainTraceFrom_filterMap (llm : String → String)
    (tts : String → Option (List Int)) :
    ∀ (us : List String) (k : Nat),
      (brainTraceFrom llm tts k us).filterMap modelCallOf = us := by
  intro us
  induction us with
  | nil => intro k; simp [brainTraceFrom]
  | cons u rest ih =>
    intro k
    simp only [brainTraceFrom, List.filterMap_append,
      brainBlock_filterMap_modelCall, ih]
    rfl

/-- C1: the brain consumes utterances strictly in FIFO order, one at a time:
the trace keys are monotone (every event of utterance `k` precedes every
event of utterance `k + 1`), the model calls are exactly the queued
utterances in queue order, and in particular the model call for utterance
`k + 1` occurs strictly after utterance `k`'s reply frame was sent — or, when
synthesis produced no audio, after its queue-item completion mark. -/
theorem brain_fifo_one_in_flight (llm : String → String)
    (tts : String → Option (List Int)) (us : List String) :
    (brainTrace llm tts us).Pairwise (fun a b => a.1 ≤ b.1) ∧
    (brainTrace llm tts us).filterMap modelCallOf = us ∧
    (∀ (i j k : Nat) (u : String) (hi : i < (brainTrace llm tts us).length)
        (hj : j < (brainTrace llm tts us).length),
      (brainTrace llm tts us).get ⟨i, hi⟩ = (k + 1, BrainEv.modelCall u) →
      ((brainTrace llm tts us).get ⟨j, hj⟩ = (k, BrainEv.sendFrame) ∨
       (brainTrace llm tts us).get ⟨j, hj⟩ = (k, BrainEv.taskDone)) →
      j < i) := by
  have hpw : (brainTrace llm tts us).Pairwise (fun a b => a.1 ≤ b.1) :=
    brainTraceFrom_pairwise llm tts us 0
  refine ⟨hpw, brainTraceFrom_filterMap llm tts us 0, ?_⟩
  intro i j k u hi hj hMi hMj
  by_contra hji
  push_neg at hji
  rcases Nat.lt_or_ge i j with hij | hij
  · have hle := List.pairwise_iff_get.mp hpw ⟨i, hi⟩ ⟨j, hj⟩ hij
    rw [hMi] at hle
    rcases hMj with hMj | hMj <;> rw [hMj] at hle <;>
      exact absurd hle (Nat.not_succ_le_self k)
  · have hij' : i = j := Nat.le_antisymm hji hij
    subst hij'
    rw [hMi] at hMj
    rcases hMj with hMj | hMj <;>
      exact absurd (congrArg Prod.fst hMj) (by simp)

/-- Witness for C1 on a concrete two-utterance queue: the reply frame of
utterance 0 (trace position 4) precedes the model call of utterance 1
(trace position 8). -/
theorem brain_fifo_one_in_flight_w : 4 < 8 :=
  (brain_fifo_one_in_flight (fun _ => "r") (fun _ => some [1])
      ["a", "b"]).2.2 8 4 0 "b" (by decide) (by decide) (by decide)
    (Or.inl (by decide))

end TalkMate
